import Mathlib

/-!
Shallow embedding of the discrete-time compartmental simulators in
`src/.pysd-test-workflow/shared_model.py` (logistic growth,
`ParallelSimulationModel`) and `src/examples/pysd/sir_model.py`
(`SIRModel`).  Python floats are modelled by exact rationals; numpy
arrays and pandas DataFrames by Lean lists of records.
-/

/-- Semantics of `np.arange start stop step` for `step ≠ 0`: the list
`[start, start + step, …]` of length `max 0 ⌈(stop - start) / step⌉`.
(numpy raises for `step = 0`; that case is never reached below.) -/
def arange (start stop step : ℚ) : List ℚ :=
  (List.range (⌈(stop - start) / step⌉).toNat).map
    (fun i : ℕ => start + (i : ℚ) * step)

/-- The attribute bag `self.components._namespace` built in
`ParallelSimulationModel.__init__`. -/
structure Components where
  population : ℚ
  growth_rate : ℚ
  carrying_capacity : ℚ
deriving DecidableEq

/-- The `ParallelSimulationModel` instance: its only state is the
`components` namespace set in `__init__` (never read by `run`). -/
structure ParallelSimulationModel where
  components : Components
deriving DecidableEq

/-- `ParallelSimulationModel()`: defaults population 1000, growth_rate 0.02,
carrying_capacity 10000. -/
def ParallelSimulationModel.init : ParallelSimulationModel :=
  ⟨⟨1000, 2/100, 10000⟩⟩

/-- The `initial_values` dict passed as second member of the
`initial_condition` tuple: a partial mapping for the three keys
`population`, `growth_rate`, `carrying_capacity`. -/
structure InitialValues where
  population : Option ℚ
  growth_rate : Option ℚ
  carrying_capacity : Option ℚ
deriving DecidableEq

/-- One row of the DataFrame returned by `ParallelSimulationModel.run`
(index `Time`, columns `Population`, `GrowthRate`, `CarryingCapacity`). -/
structure LogisticRecord where
  time : ℚ
  population : ℚ
  growthRate : ℚ
  carryingCapacity : ℚ
deriving DecidableEq

/-- Default record used as the out-of-range fallback of `List.getD`. -/
def logisticRecord0 : LogisticRecord := ⟨0, 0, 0, 0⟩

/-- `start_time` resolved from the `initial_condition` argument:
the first tuple member, or 0 when `initial_condition` is `None`. -/
def logisticStart : Option (ℚ × InitialValues) → ℚ
  | some (s, _) => s
  | none => 0

/-- `initial_values` resolved from the `initial_condition` argument:
the second tuple member, or the empty dict when `None`. -/
def logisticValues : Option (ℚ × InitialValues) → InitialValues
  | some (_, v) => v
  | none => ⟨none, none, none⟩

/-- `pop = initial_values.get('population', 1000)`. -/
def logisticP0 (ic : Option (ℚ × InitialValues)) : ℚ :=
  (logisticValues ic).population.getD 1000

/-- `r = initial_values.get('growth_rate', 0.02)`. -/
def logisticR (ic : Option (ℚ × InitialValues)) : ℚ :=
  (logisticValues ic).growth_rate.getD (2/100)

/-- `K = initial_values.get('carrying_capacity', 10000)`. -/
def logisticK (ic : Option (ℚ × InitialValues)) : ℚ :=
  (logisticValues ic).carrying_capacity.getD 10000

/-- `growth = r * pop * (1 - pop / K)`: the instantaneous growth rate
computed inside the loop of `ParallelSimulationModel.run`. -/
def logisticGrowth (r K pop : ℚ) : ℚ :=
  r * pop * (1 - pop / K)

/-- `pop = pop + growth * time_step`: the Euler update performed at the
end of each loop iteration (note: no clamping in this model). -/
def logisticStep (r K dt pop : ℚ) : ℚ :=
  pop + logisticGrowth r K pop * dt

/-- The population after `i` loop iterations, starting from `pop0`:
this is the value appended to `populations` at grid index `i`. -/
def logisticPop (r K dt pop0 : ℚ) : ℕ → ℚ
  | 0 => pop0
  | i + 1 => logisticStep r K dt (logisticPop r K dt pop0 i)

/-- `ParallelSimulationModel.run(initial_condition, final_time, time_step)`:
builds `times = np.arange(start_time, final_time + time_step, time_step)`,
then iterates the loop, appending the current `pop` and its `growth`
before each Euler update.  Row `i` of the returned DataFrame therefore
holds the `i`-th iterate and the growth rate computed from it.
The instance `m` is never read (the Python method ignores
`self.components`). -/
def ParallelSimulationModel.run (_ : ParallelSimulationModel)
    (initial_condition : Option (ℚ × InitialValues))
    (final_time time_step : ℚ) : List LogisticRecord :=
  let times := arange (logisticStart initial_condition)
      (final_time + time_step) time_step
  let r := logisticR initial_condition
  let K := logisticK initial_condition
  let pop0 := logisticP0 initial_condition
  (List.range times.length).map fun i =>
    { time := times.getD i 0
      population := logisticPop r K time_step pop0 i
      growthRate := logisticGrowth r K (logisticPop r K time_step pop0 i)
      carryingCapacity := K }

/-- The `self.params` dict of `SIRModel`. -/
structure SIRParams where
  contact_rate : ℚ
  infectivity : ℚ
  recovery_time : ℚ
  total_population : ℚ
deriving DecidableEq

/-- The `SIRModel` instance: its only state is the `params` dict. -/
structure SIRModel where
  params : SIRParams
deriving DecidableEq

/-- `SIRModel()`: contact_rate 10, infectivity 0.015, recovery_time 5,
total_population 1000. -/
def SIRModel.init : SIRModel := ⟨⟨10, 15/1000, 5, 1000⟩⟩

/-- One SIR state vector (values of `S[i]`, `I[i]`, `R[i]`). -/
structure SIRState where
  S : ℚ
  I : ℚ
  R : ℚ
deriving DecidableEq

/-- The initial conditions set in `SIRModel.run`:
`S[0] = total_population - 1`, `I[0] = 1`, `R[0] = 0`. -/
def sirInit (p : SIRParams) : SIRState :=
  ⟨p.total_population - 1, 1, 0⟩

/-- The pre-clamp Euler update of one loop iteration of `SIRModel.run`:
rates are computed from the previous state, each compartment is moved by
`rate * dt`, before the `max(0, ·)` clamp is applied. -/
def sirPre (p : SIRParams) (dt : ℚ) (st : SIRState) : SIRState :=
  let infection_rate :=
    p.contact_rate * p.infectivity * st.S * st.I / p.total_population
  let recovery_rate := st.I / p.recovery_time
  ⟨st.S - infection_rate * dt,
   st.I + (infection_rate - recovery_rate) * dt,
   st.R + recovery_rate * dt⟩

/-- One full loop iteration of `SIRModel.run`: the pre-clamp update
followed by the `max(0, ·)` clamp on each compartment. -/
def sirStep (p : SIRParams) (dt : ℚ) (st : SIRState) : SIRState :=
  ⟨max 0 (sirPre p dt st).S, max 0 (sirPre p dt st).I, max 0 (sirPre p dt st).R⟩

/-- The SIR state stored at grid index `i`: the initial conditions
iterated `i` times through the loop body. -/
def sirState (p : SIRParams) (dt : ℚ) : ℕ → SIRState
  | 0 => sirInit p
  | i + 1 => sirStep p dt (sirState p dt i)

/-- One row of the DataFrame returned by `SIRModel.run` (index `Time`,
columns `Susceptible`, `Infected`, `Recovered`). -/
structure SIRRecord where
  time : ℚ
  Susceptible : ℚ
  Infected : ℚ
  Recovered : ℚ
deriving DecidableEq

/-- Default record used as the out-of-range fallback of `List.getD`. -/
def sirRecord0 : SIRRecord := ⟨0, 0, 0, 0⟩

/-- The `times` array of `SIRModel.run`: the `return_timestamps`
argument when given, otherwise
`np.arange(initial_time, final_time + dt, dt)`. -/
def sirTimes (return_timestamps : Option (List ℚ))
    (initial_time final_time dt : ℚ) : List ℚ :=
  match return_timestamps with
  | some ts => ts
  | none => arange initial_time (final_time + dt) dt

/-- `SIRModel.run(return_timestamps, initial_time, final_time, dt)`:
allocates `S`, `I`, `R` of length `len(times)`, writes the initial
conditions at index 0 and then fills index `i` from index `i-1` with the
clamped Euler update.  On an empty grid the assignment `S[0] = …` raises
an `IndexError`, modelled by `none`; otherwise row `i` of the returned
DataFrame holds time `times[i]` and the `i`-th iterated state. -/
def SIRModel.run (m : SIRModel) (return_timestamps : Option (List ℚ))
    (initial_time final_time dt : ℚ) : Option (List SIRRecord) :=
  let times := sirTimes return_timestamps initial_time final_time dt
  if times.length = 0 then none
  else some ((List.range times.length).map fun i =>
    { time := times.getD i 0
      Susceptible := (sirState m.params dt i).S
      Infected := (sirState m.params dt i).I
      Recovered := (sirState m.params dt i).R })

/-- State-threading form of `SIRModel.run`: the Python method body
contains no assignment to `self`, so translating it with the instance
threaded through returns the instance unchanged next to the result. -/
def SIRModel.runS (m : SIRModel) (return_timestamps : Option (List ℚ))
    (initial_time final_time dt : ℚ) : SIRModel × Option (List SIRRecord) :=
  (m, m.run return_timestamps initial_time final_time dt)

/-- State-threading form of `ParallelSimulationModel.run`: the Python
method body contains no assignment to `self`, so translating it with the
instance threaded through returns the instance unchanged next to the
result. -/
def ParallelSimulationModel.runS (m : ParallelSimulationModel)
    (initial_condition : Option (ℚ × InitialValues))
    (final_time time_step : ℚ) :
    ParallelSimulationModel × List LogisticRecord :=
  (m, m.run initial_condition final_time time_step)

/-- The zero-clamp of `SIRModel.run` is never triggered during the
first `n` grid points: every pre-clamp update value computed on the way
to an index below `n` is already non-negative. -/
def sirNoClamp (p : SIRParams) (dt : ℚ) (n : ℕ) : Prop :=
  ∀ i, i + 1 < n →
    0 ≤ (sirPre p dt (sirState p dt i)).S ∧
    0 ≤ (sirPre p dt (sirState p dt i)).I ∧
    0 ≤ (sirPre p dt (sirState p dt i)).R

/-- The state columns of one SIR record (everything but the time). -/
def sirProj (rec : SIRRecord) : ℚ × ℚ × ℚ :=
  (rec.Susceptible, rec.Infected, rec.Recovered)

/-- Evaluation helper: a rational ceiling whose value is the natural
numeral `n` has `toNat` equal to `n`. -/
theorem ceil_toNat_eq {q : ℚ} {n : ℕ} (h : (⌈q⌉ : ℤ) = n) : (⌈q⌉).toNat = n := by
  omega

/-- Length of an `arange` grid. -/
theorem arange_length (start stop step : ℚ) :
    (arange start stop step).length = (⌈(stop - start) / step⌉).toNat := by
  rw [arange, List.length_map, List.length_range]

/-- Element `i` of an `arange` grid (with fallback 0). -/
theorem arange_getD (start stop step : ℚ) (i : ℕ)
    (h : i < (arange start stop step).length) :
    (arange start stop step).getD i 0 = start + (i : ℚ) * step := by
  rw [arange] at h ⊢
  rw [List.getD_eq_getElem _ _ h, List.getElem_map]
  simp

/-- Evaluation helper: once the grid size is known to be the numeral
`n`, an `arange` grid is the `n`-element list of its formula values. -/
theorem arange_eq (start stop step : ℚ) (n : ℕ)
    (h : (⌈(stop - start) / step⌉).toNat = n) :
    arange start stop step
      = (List.range n).map (fun i : ℕ => start + (i : ℚ) * step) := by
  rw [arange, h]

/-- Element access for a list built by mapping over `List.range`. -/
theorem range_map_getD {α : Type} (f : ℕ → α) (n i : ℕ) (d : α) (h : i < n) :
    ((List.range n).map f).getD i d = f i := by
  have hl : i < ((List.range n).map f).length := by simpa using h
  rw [List.getD_eq_getElem _ _ hl, List.getElem_map]
  simp

/-- The logistic trajectory has exactly one record per grid point. -/
theorem logistic_run_length (m : ParallelSimulationModel)
    (ic : Option (ℚ × InitialValues)) (ft dt : ℚ) :
    (m.run ic ft dt).length
      = (arange (logisticStart ic) (ft + dt) dt).length := by
  simp [ParallelSimulationModel.run]

/-- Record `i` of the logistic trajectory: time `times[i]`, the `i`-th
population iterate, its growth rate, and the carrying capacity. -/
theorem logistic_run_getD (m : ParallelSimulationModel)
    (ic : Option (ℚ × InitialValues)) (ft dt : ℚ) (i : ℕ)
    (h : i < (m.run ic ft dt).length) :
    (m.run ic ft dt).getD i logisticRecord0
      = { time := (arange (logisticStart ic) (ft + dt) dt).getD i 0
          population := logisticPop (logisticR ic) (logisticK ic) dt
            (logisticP0 ic) i
          growthRate := logisticGrowth (logisticR ic) (logisticK ic)
            (logisticPop (logisticR ic) (logisticK ic) dt (logisticP0 ic) i)
          carryingCapacity := logisticK ic } := by
  rw [logistic_run_length, arange_length] at h
  rw [ParallelSimulationModel.run]
  exact range_map_getD _ _ _ _ (by simpa [arange_length] using h)

/-- `SIRModel.run` succeeds exactly on a nonempty grid, and then returns
one record per grid point, record `i` holding the `i`-th iterated state. -/
theorem sir_run_eq (m : SIRModel) (ts : Option (List ℚ)) (it ft dt : ℚ)
    (h : (sirTimes ts it ft dt).length ≠ 0) :
    m.run ts it ft dt
      = some ((List.range (sirTimes ts it ft dt).length).map fun i =>
          { time := (sirTimes ts it ft dt).getD i 0
            Susceptible := (sirState m.params dt i).S
            Infected := (sirState m.params dt i).I
            Recovered := (sirState m.params dt i).R }) := by
  simp [SIRModel.run, h]

/-- `SIRModel.run` fails (Python: `IndexError` at `S[0] = …`) exactly on
an empty grid. -/
theorem sir_run_none (m : SIRModel) (ts : Option (List ℚ)) (it ft dt : ℚ)
    (h : (sirTimes ts it ft dt).length = 0) :
    m.run ts it ft dt = none := by
  simp [SIRModel.run, h]

/-- Every compartment of the iterated SIR state is non-negative when the
total population is at least 1: index 0 is `(N-1, 1, 0)` and every later
index is produced by the `max(0, ·)` clamp. -/
theorem sirState_nonneg (p : SIRParams) (dt : ℚ)
    (hN : 1 ≤ p.total_population) (i : ℕ) :
    0 ≤ (sirState p dt i).S ∧ 0 ≤ (sirState p dt i).I ∧
      0 ≤ (sirState p dt i).R := by
  cases i with
  | zero =>
    refine ⟨?_, by simp [sirState, sirInit], by simp [sirState, sirInit]⟩
    simp only [sirState, sirInit]
    linarith
  | succ n =>
    exact ⟨le_max_left _ _, le_max_left _ _, le_max_left _ _⟩

/-- C1 (amended): every SIR trajectory record is compartment-wise
non-negative, provided the total population is at least 1 (so the
initial susceptible count is non-negative); each post-update value is
clamped at zero before being stored.  The logistic model has no clamp,
see `logistic_negative_population`. -/
theorem sir_run_nonneg (m : SIRModel) (ts : Option (List ℚ)) (it ft dt : ℚ)
    (traj : List SIRRecord) (hN : 1 ≤ m.params.total_population)
    (h : m.run ts it ft dt = some traj) :
    ∀ rec ∈ traj,
      0 ≤ rec.Susceptible ∧ 0 ≤ rec.Infected ∧ 0 ≤ rec.Recovered := by
  by_cases h0 : (sirTimes ts it ft dt).length = 0
  · rw [sir_run_none m ts it ft dt h0] at h
    cases h
  · rw [sir_run_eq m ts it ft dt h0] at h
    injection h with h
    subst h
    intro rec hrec
    obtain ⟨i, -, rfl⟩ := List.mem_map.1 hrec
    simpa using sirState_nonneg m.params dt hN i

/-- C1 witness: a concrete one-point SIR run on which the theorem's
hypotheses hold. -/
theorem sir_run_nonneg_witness :
    0 ≤ (⟨0, 999, 1, 0⟩ : SIRRecord).Susceptible ∧
    0 ≤ (⟨0, 999, 1, 0⟩ : SIRRecord).Infected ∧
    0 ≤ (⟨0, 999, 1, 0⟩ : SIRRecord).Recovered :=
  sir_run_nonneg SIRModel.init (some [0]) 0 60 (1/8) [⟨0, 999, 1, 0⟩]
    (by norm_num [SIRModel.init])
    (by simp only [SIRModel.run, sirTimes]
        simp [List.range_succ, sirState, sirInit, SIRModel.init]
        norm_num)
    ⟨0, 999, 1, 0⟩ (by simp)

/-- C1 counterexample: the logistic model stores a negative population.
With the valid inputs start 0, final_time 1, time_step 1 and initial
population 600000, the returned trajectory is `[600000, -108000]`. -/
theorem logistic_negative_population :
    (ParallelSimulationModel.init.run
        (some (0, ⟨some 600000, none, none⟩)) 1 1).map (·.population)
      = [600000, -108000] ∧ (-108000 : ℚ) < 0 := by
  constructor
  · have ha : arange 0 ((1:ℚ) + 1) 1
        = (List.range 2).map (fun i : ℕ => 0 + (i : ℚ) * 1) :=
      arange_eq _ _ _ 2 (ceil_toNat_eq (by norm_num [Int.ceil_eq_iff]))
    simp only [ParallelSimulationModel.run, logisticStart, logisticValues,
      logisticR, logisticK, logisticP0, ha]
    simp [List.range_succ, logisticPop, logisticStep, logisticGrowth]
    norm_num
  · norm_num

/-- C2 (amended): neither run validates its time arguments, and neither
can raise an `InvalidParameter` error (no such check exists).  A
logistic run is total: it always returns one record per grid point (an
empty trajectory when the grid is empty).  An SIR run with the default
grid, a positive time step and `initial_time ≤ final_time` completes and
returns the full trajectory, one record per grid point. -/
theorem run_no_validation_total (m : ParallelSimulationModel)
    (ic : Option (ℚ × InitialValues)) (ft dt : ℚ)
    (s : SIRModel) (it ft2 dt2 : ℚ)
    (hdt2 : 0 < dt2) (hle : it ≤ ft2) :
    (m.run ic ft dt).length
        = (arange (logisticStart ic) (ft + dt) dt).length ∧
    ∃ traj, s.run none it ft2 dt2 = some traj ∧
      traj.length = (arange it (ft2 + dt2) dt2).length := by
  constructor
  · exact logistic_run_length m ic ft dt
  · have hpos : (sirTimes none it ft2 dt2).length ≠ 0 := by
      simp only [sirTimes, arange_length]
      have h1 : 0 < (ft2 + dt2 - it) / dt2 := div_pos (by linarith) hdt2
      have h2 : 0 < ⌈(ft2 + dt2 - it) / dt2⌉ := Int.ceil_pos.mpr h1
      omega
    refine ⟨_, sir_run_eq s none it ft2 dt2 hpos, ?_⟩
    simp [sirTimes]

/-- C2 witness: concrete valid runs of both models on which the
theorem's hypotheses hold. -/
theorem run_no_validation_total_witness :
    (ParallelSimulationModel.init.run none 2 1).length
        = (arange (logisticStart none) (2 + 1) 1).length ∧
    ∃ traj, SIRModel.init.run none 0 0 1 = some traj ∧
      traj.length = (arange 0 (0 + 1) 1).length :=
  run_no_validation_total ParallelSimulationModel.init none 2 1
    SIRModel.init 0 0 1 (by norm_num) (by norm_num)

/-- C2 counterexample: an SIR run with `final_time = -1/2 < 0 =
initial_time` and `dt = 1 > 0` does not fail at all — it returns a
one-record trajectory. -/
theorem run_reversed_time_returns_result :
    (-(1:ℚ)/2) < 0 ∧
    SIRModel.init.run none 0 (-(1:ℚ)/2) 1 = some [⟨0, 999, 1, 0⟩] := by
  constructor
  · norm_num
  · have ha : arange 0 ((-(1:ℚ)/2) + 1) 1
        = (List.range 1).map (fun i : ℕ => 0 + (i : ℚ) * 1) :=
      arange_eq _ _ _ 1 (ceil_toNat_eq (by norm_num [Int.ceil_eq_iff]))
    simp only [SIRModel.run, sirTimes, ha]
    simp [List.range_succ, sirState, sirInit, SIRModel.init]
    norm_num

/-- C3 (amended): for a positive time step and `start_time ≤
final_time`, the trajectory has one record per grid point and the count
is `⌈(final_time - start_time) / time_step⌉ + 1`; this equals
`⌊(final_time - start_time) / time_step⌋ + 1` exactly when `time_step`
divides `final_time - start_time` (in particular in the 1001-point
logistic scenario), and is one more otherwise. -/
theorem run_length_formula (m : ParallelSimulationModel)
    (ic : Option (ℚ × InitialValues)) (ft dt : ℚ)
    (hdt : 0 < dt) (hle : logisticStart ic ≤ ft) :
    (m.run ic ft dt).length
      = (⌈(ft - logisticStart ic) / dt⌉).toNat + 1 := by
  rw [logistic_run_length, arange_length]
  have hsplit : (ft + dt - logisticStart ic) / dt
      = (ft - logisticStart ic) / dt + 1 := by
    rw [show ft + dt - logisticStart ic = (ft - logisticStart ic) + dt by ring,
      add_div, div_self hdt.ne']
  rw [hsplit, Int.ceil_add_one]
  have h0 : (0:ℚ) ≤ (ft - logisticStart ic) / dt :=
    div_nonneg (by linarith) hdt.le
  have h1 : 0 ≤ ⌈(ft - logisticStart ic) / dt⌉ := Int.ceil_nonneg h0
  omega

/-- C3 witness: the concrete logistic scenario start 0, final_time 1000,
time_step 1 yields exactly 1001 grid points. -/
theorem run_length_formula_witness :
    (ParallelSimulationModel.init.run
        (some (0, ⟨none, none, none⟩)) 1000 1).length = 1001 := by
  rw [run_length_formula ParallelSimulationModel.init
    (some (0, ⟨none, none, none⟩)) 1000 1 (by norm_num)
    (by norm_num [logisticStart])]
  rw [show (⌈((1000:ℚ) - logisticStart (some (0, ⟨none, none, none⟩))) / 1⌉).toNat
      = 1000 from ceil_toNat_eq (by norm_num [Int.ceil_eq_iff, logisticStart])]

/-- C3 counterexample: with the valid inputs start 0, final_time 3,
time_step 2 the trajectory has 3 records, but
`⌊(final_time - start_time) / time_step⌋ + 1 = 2`. -/
theorem run_length_not_floor_plus_one :
    (ParallelSimulationModel.init.run (some (0, ⟨none, none, none⟩)) 3 2).length
        ≠ (⌊((3:ℚ) - 0) / 2⌋ + 1).toNat ∧
    (ParallelSimulationModel.init.run (some (0, ⟨none, none, none⟩)) 3 2).length
        = 3 := by
  have h3 : (ParallelSimulationModel.init.run
      (some (0, ⟨none, none, none⟩)) 3 2).length = 3 := by
    rw [logistic_run_length, arange_length]
    exact ceil_toNat_eq (by norm_num [Int.ceil_eq_iff, logisticStart])
  have h2 : (⌊((3:ℚ) - 0) / 2⌋ + 1).toNat = 2 := by
    have h : (⌊((3:ℚ) - 0) / 2⌋ : ℤ) = 1 := by norm_num
    omega
  exact ⟨by rw [h3, h2]; decide, h3⟩

/-- The pre-clamp SIR update conserves the compartment sum: the three
rate contributions cancel exactly. -/
theorem sirPre_sum (p : SIRParams) (dt : ℚ) (st : SIRState) :
    (sirPre p dt st).S + (sirPre p dt st).I + (sirPre p dt st).R
      = st.S + st.I + st.R := by
  simp only [sirPre]
  ring

/-- While the clamp is never triggered, the compartment sum stays at
`total_population` (its value at index 0 is `(N-1) + 1 + 0`). -/
theorem sirState_sum (p : SIRParams) (dt : ℚ) (n : ℕ)
    (hnc : sirNoClamp p dt n) :
    ∀ i < n, (sirState p dt i).S + (sirState p dt i).I + (sirState p dt i).R
      = p.total_population := by
  intro i
  induction i with
  | zero =>
    intro _
    simp only [sirState, sirInit]
    ring
  | succ k ih =>
    intro hk
    obtain ⟨h1, h2, h3⟩ := hnc k hk
    have hstep : sirState p dt (k + 1) = sirPre p dt (sirState p dt k) := by
      simp [sirState, sirStep, max_eq_right h1, max_eq_right h2,
        max_eq_right h3]
    rw [hstep, sirPre_sum, ih (by omega)]

/-- C4: on any SIR trajectory along which the zero-clamp never fires
(every pre-clamp value is already non-negative), the sum
`S + I + R` equals `total_population` at every grid point. -/
theorem sir_conservation (m : SIRModel) (ts : Option (List ℚ)) (it ft dt : ℚ)
    (traj : List SIRRecord) (h : m.run ts it ft dt = some traj)
    (hnc : sirNoClamp m.params dt traj.length) :
    ∀ rec ∈ traj,
      rec.Susceptible + rec.Infected + rec.Recovered
        = m.params.total_population := by
  by_cases h0 : (sirTimes ts it ft dt).length = 0
  · rw [sir_run_none m ts it ft dt h0] at h
    cases h
  · rw [sir_run_eq m ts it ft dt h0] at h
    injection h with h
    subst h
    intro rec hrec
    obtain ⟨i, hi, rfl⟩ := List.mem_map.1 hrec
    have hnc' : sirNoClamp m.params dt (sirTimes ts it ft dt).length := by
      simpa using hnc
    simpa using
      sirState_sum m.params dt _ hnc' i (List.mem_range.1 hi)

/-- C4 witness: with contact_rate 0, recovery_time 1, population 1000,
`dt = 1` and two requested timestamps no clamp fires and both records
sum to 1000. -/
theorem sir_conservation_witness :
    (⟨1, 999, 0, 1⟩ : SIRRecord).Susceptible
      + (⟨1, 999, 0, 1⟩ : SIRRecord).Infected
      + (⟨1, 999, 0, 1⟩ : SIRRecord).Recovered = (1000:ℚ) :=
  sir_conservation ⟨⟨0, 0, 1, 1000⟩⟩ (some [0, 1]) 0 60 1
    [⟨0, 999, 1, 0⟩, ⟨1, 999, 0, 1⟩]
    (by simp only [SIRModel.run, sirTimes]
        simp [List.range_succ, sirState, sirStep, sirPre, sirInit]
        norm_num)
    (by intro i hi
        simp only [List.length_cons, List.length_nil] at hi
        have h0 : i = 0 := by omega
        subst h0
        refine ⟨?_, ?_, ?_⟩ <;> norm_num [sirPre, sirState, sirInit])
    ⟨1, 999, 0, 1⟩ (by simp)

/-- Below the carrying capacity a non-negative population does not
shrink under one Euler step, for positive `r`, `K` and non-negative
time step. -/
theorem logisticStep_ge (r K dt pop : ℚ) (hr : 0 < r) (hK : 0 < K)
    (hdt : 0 ≤ dt) (h0 : 0 ≤ pop) (h1 : pop < K) :
    pop ≤ logisticStep r K dt pop := by
  have hfrac : 0 ≤ 1 - pop / K := by
    rw [sub_nonneg, div_le_one hK]
    exact h1.le
  have hg : 0 ≤ r * pop * (1 - pop / K) * dt :=
    mul_nonneg (mul_nonneg (mul_nonneg hr.le h0) hfrac) hdt
  simp only [logisticStep, logisticGrowth]
  linarith

/-- Above the carrying capacity the population does not grow under one
Euler step, for positive `r`, `K` and non-negative time step. -/
theorem logisticStep_le (r K dt pop : ℚ) (hr : 0 < r) (hK : 0 < K)
    (hdt : 0 ≤ dt) (h1 : K < pop) :
    logisticStep r K dt pop ≤ pop := by
  have hpop : 0 < pop := hK.trans h1
  have hfrac : 1 - pop / K ≤ 0 := by
    rw [sub_nonpos, le_div_iff₀ hK]
    linarith
  have hg : r * pop * (1 - pop / K) * dt ≤ 0 := by
    have h2 : 0 ≤ r * pop := mul_nonneg hr.le hpop.le
    have h3 : r * pop * (1 - pop / K) ≤ 0 :=
      mul_nonpos_iff.mpr (Or.inl ⟨h2, hfrac⟩)
    exact mul_nonpos_iff.mpr (Or.inr ⟨h3, hdt⟩)
  simp only [logisticStep, logisticGrowth]
  linarith

/-- C5 (amended): in a logistic run with positive growth rate, positive
carrying capacity and non-negative time step, consecutive trajectory
records satisfy: a non-negative population below `K` does not decrease,
and a population above `K` does not increase.  (Positivity of `r` and
`K` and non-negativity of the population are necessary, see
`logistic_monotone_counterexample`.) -/
theorem logistic_monotone (m : ParallelSimulationModel)
    (ic : Option (ℚ × InitialValues)) (ft dt : ℚ) (i : ℕ)
    (hr : 0 < logisticR ic) (hK : 0 < logisticK ic) (hdt : 0 ≤ dt)
    (hi : i + 1 < (m.run ic ft dt).length) :
    (0 ≤ ((m.run ic ft dt).getD i logisticRecord0).population →
      ((m.run ic ft dt).getD i logisticRecord0).population < logisticK ic →
      ((m.run ic ft dt).getD i logisticRecord0).population
        ≤ ((m.run ic ft dt).getD (i + 1) logisticRecord0).population) ∧
    (logisticK ic < ((m.run ic ft dt).getD i logisticRecord0).population →
      ((m.run ic ft dt).getD (i + 1) logisticRecord0).population
        ≤ ((m.run ic ft dt).getD i logisticRecord0).population) := by
  rw [logistic_run_getD m ic ft dt i (by omega),
    logistic_run_getD m ic ft dt (i + 1) hi]
  constructor
  · intro h0 h1
    exact logisticStep_ge _ _ _ _ hr hK hdt h0 h1
  · intro h1
    exact logisticStep_le _ _ _ _ hr hK hdt h1

/-- C5 witness: in the default run (P0 = 1000 < K = 10000, r = 0.02 > 0,
dt = 1) the population does not decrease from index 0 to index 1. -/
theorem logistic_monotone_witness :
    ((ParallelSimulationModel.init.run none 2 1).getD 0
        logisticRecord0).population
      ≤ ((ParallelSimulationModel.init.run none 2 1).getD 1
        logisticRecord0).population := by
  have hlen : (ParallelSimulationModel.init.run none 2 1).length = 3 := by
    rw [logistic_run_length, arange_length]
    exact ceil_toNat_eq (by norm_num [Int.ceil_eq_iff, logisticStart])
  have hg0 := logistic_run_getD ParallelSimulationModel.init none 2 1 0
    (by omega)
  refine (logistic_monotone ParallelSimulationModel.init none 2 1 0
      (by norm_num [logisticR, logisticValues])
      (by norm_num [logisticK, logisticValues])
      (by norm_num) (by omega)).1 ?_ ?_
  · rw [hg0]
    norm_num [logisticPop, logisticP0, logisticValues]
  · rw [hg0]
    norm_num [logisticPop, logisticP0, logisticK, logisticValues]

/-- C5 counterexample: a run with override population -100 has r > 0 and
P(0) = -100 < K = 10000, but P(1) = -5101/50 < P(0): below the carrying
capacity the population strictly decreases, because the claim omits the
non-negativity of P(t) (the model never clamps). -/
theorem logistic_monotone_counterexample :
    0 < logisticR (some (0, ⟨some (-100), none, none⟩)) ∧
    ((ParallelSimulationModel.init.run
        (some (0, ⟨some (-100), none, none⟩)) 1 1).getD 0
        logisticRecord0).population
      < logisticK (some (0, ⟨some (-100), none, none⟩)) ∧
    ((ParallelSimulationModel.init.run
        (some (0, ⟨some (-100), none, none⟩)) 1 1).getD 1
        logisticRecord0).population
      < ((ParallelSimulationModel.init.run
        (some (0, ⟨some (-100), none, none⟩)) 1 1).getD 0
        logisticRecord0).population := by
  have hlen : (ParallelSimulationModel.init.run
      (some (0, ⟨some (-100), none, none⟩)) 1 1).length = 2 := by
    rw [logistic_run_length, arange_length]
    exact ceil_toNat_eq (by norm_num [Int.ceil_eq_iff, logisticStart])
  have hg0 := logistic_run_getD ParallelSimulationModel.init
    (some (0, ⟨some (-100), none, none⟩)) 1 1 0 (by omega)
  have hg1 := logistic_run_getD ParallelSimulationModel.init
    (some (0, ⟨some (-100), none, none⟩)) 1 1 1 (by omega)
  refine ⟨by norm_num [logisticR, logisticValues], ?_, ?_⟩
  · rw [hg0]
    norm_num [logisticPop, logisticP0, logisticK, logisticValues]
  · rw [hg0, hg1]
    norm_num [logisticPop, logisticStep, logisticGrowth, logisticP0,
      logisticR, logisticK, logisticValues]

/-- C6: both simulators are deterministic pure functions of their
parameters and arguments.  A logistic run does not depend on the
instance at all (the method never reads `self`), and two SIR model
instances holding equal parameter dicts return identical trajectories
for identical arguments. -/
theorem run_deterministic (m1 m2 : ParallelSimulationModel)
    (ic : Option (ℚ × InitialValues)) (ft dt : ℚ)
    (s1 s2 : SIRModel) (ts : Option (List ℚ)) (it ft2 dt2 : ℚ)
    (h : s1.params = s2.params) :
    m1.run ic ft dt = m2.run ic ft dt ∧
    s1.run ts it ft2 dt2 = s2.run ts it ft2 dt2 := by
  constructor
  · rfl
  · simp [SIRModel.run, h]

/-- C6 witness: two separately constructed instances with the default
parameters produce identical results. -/
theorem run_deterministic_witness :
    ParallelSimulationModel.init.run none 3 1
        = (⟨⟨1, 1, 1⟩⟩ : ParallelSimulationModel).run none 3 1 ∧
    SIRModel.init.run none 0 60 (1/8)
        = (⟨⟨10, 15/1000, 5, 1000⟩⟩ : SIRModel).run none 0 60 (1/8) :=
  run_deterministic ParallelSimulationModel.init ⟨⟨1, 1, 1⟩⟩ none 3 1
    SIRModel.init ⟨⟨10, 15/1000, 5, 1000⟩⟩ none 0 60 (1/8) rfl

/-- C7: in every logistic trajectory, the growth rate reported at index
`i` is computed from the population stored at that same index (the
pre-update state) — including at the final index — and whenever index
`i + 1` exists its population is exactly the Euler step
`population(i) + growthRate(i) * time_step`. -/
theorem run_rate_alignment (m : ParallelSimulationModel)
    (ic : Option (ℚ × InitialValues)) (ft dt : ℚ) (i : ℕ)
    (hi : i < (m.run ic ft dt).length) :
    ((m.run ic ft dt).getD i logisticRecord0).growthRate
      = logisticGrowth (logisticR ic) (logisticK ic)
          (((m.run ic ft dt).getD i logisticRecord0).population) ∧
    (i + 1 < (m.run ic ft dt).length →
      ((m.run ic ft dt).getD (i + 1) logisticRecord0).population
        = ((m.run ic ft dt).getD i logisticRecord0).population
          + ((m.run ic ft dt).getD i logisticRecord0).growthRate * dt) := by
  rw [logistic_run_getD m ic ft dt i hi]
  constructor
  · rfl
  · intro hi1
    rw [logistic_run_getD m ic ft dt (i + 1) hi1]
    rfl

/-- C7 witness: the alignment at index 0 of the default three-point
logistic run. -/
theorem run_rate_alignment_witness :
    ((ParallelSimulationModel.init.run none 2 1).getD 0
        logisticRecord0).growthRate
      = logisticGrowth (logisticR none) (logisticK none)
          (((ParallelSimulationModel.init.run none 2 1).getD 0
            logisticRecord0).population) ∧
    (0 + 1 < (ParallelSimulationModel.init.run none 2 1).length →
      ((ParallelSimulationModel.init.run none 2 1).getD (0 + 1)
          logisticRecord0).population
        = ((ParallelSimulationModel.init.run none 2 1).getD 0
            logisticRecord0).population
          + ((ParallelSimulationModel.init.run none 2 1).getD 0
            logisticRecord0).growthRate * 1) :=
  run_rate_alignment ParallelSimulationModel.init none 2 1 0
    (by rw [logistic_run_length, arange_length,
          show (⌈((2:ℚ) + 1 - logisticStart none) / 1⌉).toNat = 3 from
            ceil_toNat_eq (by norm_num [Int.ceil_eq_iff, logisticStart])]
        omega)

/-- C8: the state stored at grid index 0 equals the initial condition.
Logistic: the index-0 population is the `population` override when one
is named in the initial values and the default 1000 otherwise.  SIR
(which accepts no initial-state overrides): index 0 holds
`total_population - 1` susceptible, one infected and zero recovered. -/
theorem run_initial_state (m : ParallelSimulationModel)
    (ic : Option (ℚ × InitialValues)) (ft dt : ℚ)
    (s : SIRModel) (ts : Option (List ℚ)) (it ft2 dt2 : ℚ)
    (traj : List SIRRecord)
    (hdt : 0 < dt) (hle : logisticStart ic ≤ ft)
    (h : s.run ts it ft2 dt2 = some traj) :
    ((m.run ic ft dt).getD 0 logisticRecord0).population
        = (logisticValues ic).population.getD 1000 ∧
    ((logisticValues ic).population = none →
      ((m.run ic ft dt).getD 0 logisticRecord0).population = 1000) ∧
    (∀ v, (logisticValues ic).population = some v →
      ((m.run ic ft dt).getD 0 logisticRecord0).population = v) ∧
    (traj.getD 0 sirRecord0).Susceptible = s.params.total_population - 1 ∧
    (traj.getD 0 sirRecord0).Infected = 1 ∧
    (traj.getD 0 sirRecord0).Recovered = 0 := by
  have hpos : 0 < (m.run ic ft dt).length := by
    rw [logistic_run_length, arange_length]
    have h1 : 0 < (ft + dt - logisticStart ic) / dt :=
      div_pos (by linarith) hdt
    have h2 : 0 < ⌈(ft + dt - logisticStart ic) / dt⌉ := Int.ceil_pos.mpr h1
    omega
  have hpop : ((m.run ic ft dt).getD 0 logisticRecord0).population
      = (logisticValues ic).population.getD 1000 := by
    rw [logistic_run_getD m ic ft dt 0 hpos]
    rfl
  have h0 : (sirTimes ts it ft2 dt2).length ≠ 0 := by
    intro hz
    rw [sir_run_none s ts it ft2 dt2 hz] at h
    cases h
  rw [sir_run_eq s ts it ft2 dt2 h0] at h
  injection h with h
  subst h
  have hpos2 : 0 < (sirTimes ts it ft2 dt2).length := Nat.pos_of_ne_zero h0
  refine ⟨hpop, ?_, ?_, ?_, ?_, ?_⟩
  · intro hnone
    rw [hpop, hnone]
    rfl
  · intro v hv
    rw [hpop, hv]
    rfl
  · rw [range_map_getD _ _ _ _ hpos2]
    simp [sirState, sirInit]
  · rw [range_map_getD _ _ _ _ hpos2]
    simp [sirState, sirInit]
  · rw [range_map_getD _ _ _ _ hpos2]
    simp [sirState, sirInit]

/-- C8 witness: a logistic run with an overridden initial population of
500 and a one-point SIR run with the default parameters. -/
theorem run_initial_state_witness :
    ((ParallelSimulationModel.init.run
        (some (0, ⟨some 500, none, none⟩)) 1 1).getD 0
        logisticRecord0).population
        = (logisticValues (some (0, ⟨some 500, none, none⟩))).population.getD
            1000 ∧
    ((logisticValues (some (0, ⟨some 500, none, none⟩))).population = none →
      ((ParallelSimulationModel.init.run
        (some (0, ⟨some 500, none, none⟩)) 1 1).getD 0
        logisticRecord0).population = 1000) ∧
    (∀ v,
      (logisticValues (some (0, ⟨some 500, none, none⟩))).population = some v →
      ((ParallelSimulationModel.init.run
        (some (0, ⟨some 500, none, none⟩)) 1 1).getD 0
        logisticRecord0).population = v) ∧
    (([⟨0, 999, 1, 0⟩] : List SIRRecord).getD 0 sirRecord0).Susceptible
        = SIRModel.init.params.total_population - 1 ∧
    (([⟨0, 999, 1, 0⟩] : List SIRRecord).getD 0 sirRecord0).Infected = 1 ∧
    (([⟨0, 999, 1, 0⟩] : List SIRRecord).getD 0 sirRecord0).Recovered = 0 :=
  run_initial_state ParallelSimulationModel.init
    (some (0, ⟨some 500, none, none⟩)) 1 1
    SIRModel.init (some [0]) 0 60 (1/8) [⟨0, 999, 1, 0⟩]
    (by norm_num) (by norm_num [logisticStart])
    (by simp only [SIRModel.run, sirTimes]
        simp [List.range_succ, sirState, sirInit, SIRModel.init]
        norm_num)

/-- C9: a run has no effect beyond its return value: the Python method
bodies contain no assignment to `self`, so the state-threading
translations `runS` return the model instance — its stored default
parameters included — unchanged, and the trajectory is freshly built
from the arguments alone. -/
theorem run_frame (m : ParallelSimulationModel)
    (ic : Option (ℚ × InitialValues)) (ft dt : ℚ)
    (s : SIRModel) (ts : Option (List ℚ)) (it ft2 dt2 : ℚ) :
    (m.runS ic ft dt).1 = m ∧ (s.runS ts it ft2 dt2).1 = s :=
  ⟨rfl, rfl⟩

/-- C10: when explicit return_timestamps are supplied, every Euler
update still multiplies the rates by the `dt` argument (the update rule
never reads the timestamps), so the state columns of the returned
trajectory depend on the supplied timestamps only through their count:
two timestamp lists of equal length yield identical S/I/R columns,
whatever their values (and whatever initial/final times are passed
alongside, as those are ignored on this path). -/
theorem sir_timestamps_count_only (m : SIRModel) (ts1 ts2 : List ℚ)
    (it1 ft1 it2 ft2 dt : ℚ) (h : ts1.length = ts2.length) :
    Option.map (List.map sirProj) (m.run (some ts1) it1 ft1 dt)
      = Option.map (List.map sirProj) (m.run (some ts2) it2 ft2 dt) := by
  simp only [SIRModel.run, sirTimes]
  rw [h]
  by_cases h0 : ts2.length = 0
  · simp [h0]
  · simp only [h0, if_false]
    simp [List.map_map, Function.comp, sirProj]

/-- C10 witness: the timestamp lists `[0, 5]` and `[3, 7]` (with
different initial/final times as well) give identical state columns. -/
theorem sir_timestamps_count_only_witness :
    Option.map (List.map sirProj)
        (SIRModel.init.run (some [0, 5]) 0 60 (1/8))
      = Option.map (List.map sirProj)
        (SIRModel.init.run (some [3, 7]) 10 20 (1/8)) :=
  sir_timestamps_count_only SIRModel.init [0, 5] [3, 7] 0 60 10 20 (1/8) rfl
